import Mathlib

/-!
Verification development for the SlicerOpenLIFU treatment-planning plugin.

This file gives a shallow embedding, in Lean 4, of the coordinate-frame
converter (`OpenLIFULib/coordinate_system_utils.py`), the target conversion
helpers (`OpenLIFULib/targets.py`), the transducer and session entities
(`OpenLIFULib/transducer.py`, `OpenLIFULib/session.py`) and the
session/object registry logic (`OpenLIFUData/OpenLIFUData.py`,
`OpenLIFUPrePlanning/OpenLIFUPrePlanning.py`), together with theorems that
settle the specification claims about that code.

Conventions of the embedding:
* numpy arrays whose shape is checked at run time are modelled by `NDMat`
  (a shape-carrying matrix of rationals); fixed-shape matrices are modelled
  by `Matrix (Fin n) (Fin n) ℚ`;
* Python exceptions are modelled with `Except String`; functions that may
  mutate state before raising return the partially mutated state next to
  the `Except` value;
* the Slicer MRML scene, the parameter node holding the loaded-object
  registries, and the user-visible dialogs are modelled explicitly by
  `DataState`; dialog answers are supplied by an oracle `UIOracle`;
* synchronous scene-graph notifications (NodeAboutToBeRemoved /
  NodeRemoved observers) re-enter the registry logic, so the event-driven
  functions form one mutual block, driven by an explicit fuel parameter.
-/

/-! ## Coordinate-frame converter (`coordinate_system_utils.py`) -/

/-- The `directions_in_RAS_coords_dict` lookup table from
`coordinate_system_utils.py` lines 18-25: each of the six anatomical axis
labels maps to its unit vector in RAS coordinates; any other label is a
`KeyError`, modelled by `none`. -/
def directions_in_RAS_coords_dict (c : Char) : Option (Fin 3 → Int) :=
  if c = 'R' then some ![1, 0, 0]
  else if c = 'A' then some ![0, 1, 0]
  else if c = 'S' then some ![0, 0, 1]
  else if c = 'L' then some ![-1, 0, 0]
  else if c = 'P' then some ![0, -1, 0]
  else if c = 'I' then some ![0, 0, -1]
  else none

/-- A 3x3 integer matrix as used by `get_xxx2ras_matrix`. -/
abbrev Mat3i := Fin 3 → Fin 3 → Int

/-- Embedding of `get_xxx2ras_matrix` (`coordinate_system_utils.py` lines
27-30): the rows of the numpy array are the dictionary entries of the three
axis labels, and the result is the transpose, so column `j` of the result
is the direction vector of label `j`. A label outside the dictionary
raises a `KeyError`. -/
def get_xxx2ras_matrix (d0 d1 d2 : Char) : Except String Mat3i :=
  match directions_in_RAS_coords_dict d0, directions_in_RAS_coords_dict d1,
      directions_in_RAS_coords_dict d2 with
  | some v0, some v1, some v2 =>
      Except.ok (fun i j => if j = 0 then v0 i else if j = 1 then v1 i else v2 i)
  | _, _, _ => Except.error "KeyError"

/-- Total version of `get_xxx2ras_matrix`, used to phrase theorems without
an existential over the matrix; it is the zero matrix on the error case. -/
def get_xxx2ras_matrix_total (d0 d1 d2 : Char) : Mat3i :=
  match get_xxx2ras_matrix d0 d1 d2 with
  | Except.ok M => M
  | Except.error _ => fun _ _ => 0

/-- Specification-side classification of the six axis labels by the spatial
dimension they address: R/L is dimension 0, A/P dimension 1, S/I
dimension 2; anything else is not an axis label. -/
def axisIndex (c : Char) : Option (Fin 3) :=
  if c = 'R' ∨ c = 'L' then some 0
  else if c = 'A' ∨ c = 'P' then some 1
  else if c = 'S' ∨ c = 'I' then some 2
  else none

/-- Specification-side predicate for a valid axis-label triple: three
recognized labels with exactly one label per spatial dimension. -/
def dimsOk (d0 d1 d2 : Char) : Bool :=
  (axisIndex d0).isSome && (axisIndex d1).isSome && (axisIndex d2).isSome &&
  (axisIndex d0 != axisIndex d1) && (axisIndex d0 != axisIndex d2) &&
  (axisIndex d1 != axisIndex d2)

/-- Dot product of columns `j1` and `j2` of a 3x3 integer matrix. -/
def col_dot (M : Mat3i) (j1 j2 : Fin 3) : Int :=
  M 0 j1 * M 0 j2 + M 1 j1 * M 1 j2 + M 2 j1 * M 2 j2

/-- Determinant of a 3x3 integer matrix, by cofactor expansion. -/
def det3 (M : Mat3i) : Int :=
  M 0 0 * (M 1 1 * M 2 2 - M 1 2 * M 2 1)
  - M 0 1 * (M 1 0 * M 2 2 - M 1 2 * M 2 0)
  + M 0 2 * (M 1 0 * M 2 1 - M 1 1 * M 2 0)

/-- Whether an `Except` value is a success. -/
def exceptIsOk {e a : Type} (x : Except e a) : Bool :=
  match x with
  | Except.ok _ => true
  | Except.error _ => false

/-- The conclusion of claim C7 on the success path: the call succeeds, the
columns are pairwise orthogonal unit vectors, the determinant is plus or
minus one, and column `j` of the result is (pointwise) the anatomical-frame
unit vector that the dictionary assigns to input label `j`. -/
def xxx2rasOk (d0 d1 d2 : Char) : Prop :=
  exceptIsOk (get_xxx2ras_matrix d0 d1 d2) = true
  ∧ (∀ j1 j2 : Fin 3,
      col_dot (get_xxx2ras_matrix_total d0 d1 d2) j1 j2 = if j1 = j2 then 1 else 0)
  ∧ (det3 (get_xxx2ras_matrix_total d0 d1 d2) = 1
      ∨ det3 (get_xxx2ras_matrix_total d0 d1 d2) = -1)
  ∧ (∀ i : Fin 3, (directions_in_RAS_coords_dict d0).map (fun v => v i)
      = some (get_xxx2ras_matrix_total d0 d1 d2 i 0))
  ∧ (∀ i : Fin 3, (directions_in_RAS_coords_dict d1).map (fun v => v i)
      = some (get_xxx2ras_matrix_total d0 d1 d2 i 1))
  ∧ (∀ i : Fin 3, (directions_in_RAS_coords_dict d2).map (fun v => v i)
      = some (get_xxx2ras_matrix_total d0 d1 d2 i 2))

instance (d0 d1 d2 : Char) : Decidable (xxx2rasOk d0 d1 d2) := by
  unfold xxx2rasOk; infer_instance

/-- A label with an axis index is one of the six recognized symbols. -/
theorem axisIndex_isSome_cases {c : Char} (h : (axisIndex c).isSome = true) :
    c = 'R' ∨ c = 'L' ∨ c = 'A' ∨ c = 'P' ∨ c = 'S' ∨ c = 'I' := by
  unfold axisIndex at h
  split_ifs at h with h1 h2 h3
  · tauto
  · tauto
  · tauto
  · simp at h

/-- C7: For every triple of axis labels drawn from the six recognized symbols
with exactly one label per spatial dimension, `get_xxx2ras_matrix` returns a
3x3 orthonormal matrix (columns of unit length, mutually orthogonal) with
determinant +1 or -1, whose columns are the anatomical-frame unit vectors of
the input labels in order; for any label outside the six symbols it raises a
`KeyError`. -/
theorem get_xxx2ras_matrix_spec (d0 d1 d2 : Char) :
    (dimsOk d0 d1 d2 = true → xxx2rasOk d0 d1 d2)
    ∧ ((directions_in_RAS_coords_dict d0 = none
        ∨ directions_in_RAS_coords_dict d1 = none
        ∨ directions_in_RAS_coords_dict d2 = none) →
        get_xxx2ras_matrix d0 d1 d2 = Except.error "KeyError") := by
  constructor
  · intro h
    have h' := h
    simp only [dimsOk, Bool.and_eq_true] at h'
    obtain ⟨⟨⟨⟨⟨h0, h1⟩, h2⟩, -⟩, -⟩, -⟩ := h'
    rcases axisIndex_isSome_cases h0 with rfl | rfl | rfl | rfl | rfl | rfl <;>
      rcases axisIndex_isSome_cases h1 with rfl | rfl | rfl | rfl | rfl | rfl <;>
      rcases axisIndex_isSome_cases h2 with rfl | rfl | rfl | rfl | rfl | rfl <;>
      revert h <;> decide
  · intro h
    cases e0 : directions_in_RAS_coords_dict d0 <;>
      cases e1 : directions_in_RAS_coords_dict d1 <;>
      cases e2 : directions_in_RAS_coords_dict d2 <;>
      simp_all [get_xxx2ras_matrix]

/-- Witness for C7: the axis-label triple LPS (the one the code uses for
transducer frames) is valid and yields an orthonormal sign matrix. -/
theorem get_xxx2ras_matrix_spec_witness :
    dimsOk 'L' 'P' 'S' = true ∧ xxx2rasOk 'L' 'P' 'S' :=
  ⟨by decide, (get_xxx2ras_matrix_spec 'L' 'P' 'S').1 (by decide)⟩

/-! ## Unit scale factors -/

/-- Modelled from the spec: `get_xx2mm_scale_factor`
(`coordinate_system_utils.py` lines 32-34) delegates to
`openlifu.util.units.getsiscale`, which belongs to the external openlifu
library and is not part of this repository. Per spec section 4.1,
`unitScaleFactor(unitName)` is the ratio converting a length in `unitName`
to millimeters and errors (`UnknownUnit`) on unrecognized unit names. -/
def get_xx2mm_scale_factor (length_unit : String) : Option ℚ :=
  if length_unit = "mm" then some 1
  else if length_unit = "cm" then some 10
  else if length_unit = "m" then some 1000
  else if length_unit = "um" then some (1 / 1000)
  else none

/-! ## `linear_to_affine` -/

/-- A numpy-style matrix of rationals carrying its run-time shape; entries
outside the shape are irrelevant (read as zero). -/
structure NDMat where
  rows : Nat
  cols : Nat
  entry : Nat → Nat → ℚ

/-- Embedding of `linear_to_affine` (`coordinate_system_utils.py` lines
36-49): embeds a 3x3 linear map into a 4x4 homogeneous affine matrix with
the given translation (default zero); any input matrix not shaped exactly
3x3 raises a `ValueError`. -/
def linear_to_affine (matrix : NDMat) (translation : Option (Fin 3 → ℚ)) :
    Except String NDMat :=
  let t : Fin 3 → ℚ := translation.getD (fun _ => 0)
  if matrix.rows = 3 ∧ matrix.cols = 3 then
    Except.ok
      { rows := 4
        cols := 4
        entry := fun i j =>
          if hi : i < 3 then
            (if j < 3 then matrix.entry i j
             else if j = 3 then t ⟨i, hi⟩ else 0)
          else if i = 3 then (if j = 3 then 1 else 0)
          else 0 }
  else Except.error "The input numpy array must be of shape (3, 3)."

/-- C8: `linear_to_affine` raises a `ValueError` for every input matrix not
shaped exactly 3x3; for every 3x3 input matrix and optional translation
(default zero) it returns the 4x4 matrix whose top-left 3x3 block is the
input, whose last column's first three entries are the translation, and
whose bottom row is exactly (0,0,0,1). -/
theorem linear_to_affine_spec (M : NDMat) (translation : Option (Fin 3 → ℚ)) :
    (¬(M.rows = 3 ∧ M.cols = 3) →
      linear_to_affine M translation
        = Except.error "The input numpy array must be of shape (3, 3).")
    ∧ (M.rows = 3 → M.cols = 3 →
      ∃ A, linear_to_affine M translation = Except.ok A
        ∧ A.rows = 4 ∧ A.cols = 4
        ∧ (∀ i j : Nat, i < 3 → j < 3 → A.entry i j = M.entry i j)
        ∧ (∀ i : Fin 3, A.entry i 3 = (translation.getD (fun _ => 0)) i)
        ∧ A.entry 3 0 = 0 ∧ A.entry 3 1 = 0 ∧ A.entry 3 2 = 0
        ∧ A.entry 3 3 = 1) := by
  constructor
  · intro h
    unfold linear_to_affine
    rw [if_neg h]
  · intro h3 hc
    unfold linear_to_affine
    rw [if_pos ⟨h3, hc⟩]
    refine ⟨_, rfl, rfl, rfl, ?_, ?_, ?_, ?_, ?_, ?_⟩
    · intro i j hi hj
      simp [hi, hj]
    · intro i
      simp [i.isLt]
    · norm_num
    · norm_num
    · norm_num
    · norm_num

/-- A 2x2 zero matrix, a shape `linear_to_affine` must reject. -/
def egBadShapeMat : NDMat := ⟨2, 2, fun _ _ => 0⟩

/-- A concrete 3x3 matrix for exercising `linear_to_affine`. -/
def egLinearMat : NDMat := ⟨3, 3, fun i j => (i : ℚ) + j⟩

/-- Witness for C8: the 2x2 matrix is rejected with the shape error, and the
3x3 matrix is embedded into a 4x4 affine matrix. -/
theorem linear_to_affine_spec_witness :
    linear_to_affine egBadShapeMat none
      = Except.error "The input numpy array must be of shape (3, 3)."
    ∧ ∃ A, linear_to_affine egLinearMat none = Except.ok A
        ∧ A.rows = 4 ∧ A.cols = 4
        ∧ (∀ i j : Nat, i < 3 → j < 3 → A.entry i j = egLinearMat.entry i j)
        ∧ (∀ i : Fin 3, A.entry i 3 = ((none : Option (Fin 3 → ℚ)).getD (fun _ => 0)) i)
        ∧ A.entry 3 0 = 0 ∧ A.entry 3 1 = 0 ∧ A.entry 3 2 = 0
        ∧ A.entry 3 3 = 1 :=
  ⟨(linear_to_affine_spec egBadShapeMat none).1 (by decide),
   (linear_to_affine_spec egLinearMat none).2 rfl rfl⟩

/-! ## Transducer placement transforms (`transducer.py`, `session.py`) -/

/-- A 4x4 rational matrix, modelling a homogeneous affine transform. -/
abbrev Mat4 := Matrix (Fin 4) (Fin 4) ℚ

/-- Read an `NDMat` (whose shape is 4x4 on every use of this function) as a
fixed-shape 4x4 matrix. -/
def NDMat.to4x4 (A : NDMat) : Mat4 :=
  Matrix.of fun i j : Fin 4 => A.entry i.val j.val

/-- The `openlifu2slicer_matrix` computed in
`transducer.py` lines 55-57 and `session.py` lines 166-168:
`linear_to_affine(get_xxx2ras_matrix('LPS') * get_xx2mm_scale_factor(units))`,
the affine transform from the transducer's native LPS frame in its native
units to Slicer RAS millimeter space. -/
def openlifu2slicer_matrix (units : String) : Except String NDMat :=
  match get_xxx2ras_matrix 'L' 'P' 'S', get_xx2mm_scale_factor units with
  | Except.ok R, some s =>
      linear_to_affine
        ⟨3, 3, fun i j =>
          if hi : i < 3 then
            if hj : j < 3 then (R ⟨i, hi⟩ ⟨j, hj⟩ : ℚ) * s else 0
          else 0⟩
        none
  | _, _ => Except.error "KeyError"

/-- Modelled from the spec: `Transducer.convert_transform` belongs to the
external openlifu library and is not part of this repository. Per spec
section 4.3, the `convertPlacement` step reinterprets a caller-given matrix
expressed in possibly different units into the transducer's own native unit
convention. Re-expressing an affine transform between unit conventions
rescales its translation column by the ratio of the two unit scale factors
and leaves the linear part unchanged, so when the given units equal the
native units the matrix is returned unchanged; unknown units are an error. -/
def convert_transform (native_units : String) (matrix : Mat4) (units : String) :
    Except String Mat4 :=
  match get_xx2mm_scale_factor units, get_xx2mm_scale_factor native_units with
  | some su, some sn =>
      Except.ok (Matrix.of fun i j =>
        if j = 3 ∧ i ≠ 3 then matrix i j * (su / sn) else matrix i j)
  | _, _ => Except.error "UnknownUnit"

/-- An openlifu `Transducer` object, restricted to the fields this logic
reads: its id and its native length units. -/
structure OpenlifuTransducer where
  id : String
  units : String

/-- The transform matrix stored into the transducer's transform node by
`SlicerOpenLIFUTransducer.initialize_from_openlifu_transducer`
(`transducer.py` lines 55-66):
`openlifu2slicer_matrix @ transducer.convert_transform(matrix, units)`, where
a missing matrix defaults to the identity and missing units default to the
transducer's native units. -/
def transducer_transform_to_store (transducer : OpenlifuTransducer)
    (transducer_matrix : Option Mat4) (transducer_matrix_units : Option String) :
    Except String Mat4 :=
  match openlifu2slicer_matrix transducer.units with
  | Except.error e => Except.error e
  | Except.ok o2s =>
    let tm := transducer_matrix.getD 1
    let tmu := transducer_matrix_units.getD transducer.units
    match convert_transform transducer.units tm tmu with
    | Except.error e => Except.error e
    | Except.ok conv => Except.ok (o2s.to4x4 * conv)

/-- Models `np.linalg.inv` on a 4x4 rational matrix: the adjugate divided by
the determinant, which for invertible input agrees with the matrix inverse. -/
def mat4_np_inv (M : Mat4) : Mat4 := (M.det)⁻¹ • M.adjugate

/-- The transducer placement extracted back out of the scene on the save path
by `SlicerOpenLIFUSession.update_underlying_openlifu_session` (`session.py`
lines 161-172): `np.linalg.inv(openlifu2slicer_matrix) @ transform_array`,
expressed in the transducer's native units. -/
def array_transform_from_scene (transducer : OpenlifuTransducer)
    (transform_array : Mat4) : Except String Mat4 :=
  match openlifu2slicer_matrix transducer.units with
  | Except.error e => Except.error e
  | Except.ok o2s => Except.ok (mat4_np_inv o2s.to4x4 * transform_array)

/-- The affine diagonal matrix diag(-s, -s, s, 1): the LPS-to-RAS axis flip
scaled by `s`, embedded as a homogeneous 4x4 matrix. -/
def lps_scale_mat4 (s : ℚ) : Mat4 :=
  Matrix.of fun i j : Fin 4 =>
    if i.val = j.val then
      (if i.val = 2 then s else if i.val = 3 then 1 else -s)
    else 0

theorem fin4_val_zero : (0 : Fin 4).val = 0 := rfl

theorem fin4_val_one : (1 : Fin 4).val = 1 := rfl

theorem fin4_val_two : (2 : Fin 4).val = 2 := rfl

theorem fin4_val_three : (3 : Fin 4).val = 3 := rfl

/-- Evaluation of `openlifu2slicer_matrix` for a unit with scale factor `s`:
it succeeds and is the affine diagonal matrix carrying LPS to RAS scaled by
`s`. -/
theorem openlifu2slicer_matrix_eval (units : String) (s : ℚ)
    (hu : get_xx2mm_scale_factor units = some s) :
    ∃ A, openlifu2slicer_matrix units = Except.ok A ∧
      A.to4x4 = lps_scale_mat4 s := by
  unfold openlifu2slicer_matrix
  rw [hu]
  refine ⟨_, rfl, ?_⟩
  funext i j
  fin_cases i <;> fin_cases j <;>
    simp [NDMat.to4x4, linear_to_affine, get_xxx2ras_matrix,
      directions_in_RAS_coords_dict, lps_scale_mat4,
      fin4_val_zero, fin4_val_one, fin4_val_two, fin4_val_three]

/-- For a matrix with invertible determinant, the numpy inverse is a left
inverse. -/
theorem mat4_np_inv_mul (A : Mat4) (h : IsUnit A.det) : mat4_np_inv A * A = 1 := by
  have hA : mat4_np_inv A = A⁻¹ := by
    rw [Matrix.inv_def, Ring.inverse_eq_inv]
    rfl
  rw [hA]
  exact Matrix.nonsing_inv_mul A h

theorem lps_scale_mat4_det (s : ℚ) : (lps_scale_mat4 s).det = s ^ 3 := by
  have h : lps_scale_mat4 s
      = Matrix.diagonal (fun i : Fin 4 =>
          if i.val = 2 then s else if i.val = 3 then 1 else -s) := by
    funext i j
    fin_cases i <;> fin_cases j <;>
      simp [lps_scale_mat4, Matrix.diagonal_apply, fin4_val_zero, fin4_val_one,
        fin4_val_two, fin4_val_three]
  rw [h, Matrix.det_diagonal, Fin.prod_univ_four]
  norm_num [fin4_val_zero, fin4_val_one, fin4_val_two, fin4_val_three]
  ring

/-- Converting a transform between a unit convention and itself returns the
matrix unchanged. -/
theorem convert_transform_same_units (native_units : String) (M : Mat4) (s : ℚ)
    (hu : get_xx2mm_scale_factor native_units = some s) (hs : s ≠ 0) :
    convert_transform native_units M native_units = Except.ok M := by
  unfold convert_transform
  rw [hu]
  have h : (Matrix.of fun i j : Fin 4 =>
      if j = 3 ∧ i ≠ 3 then M i j * (s / s) else M i j) = M := by
    rw [div_self hs]
    funext i j
    simp
  exact congrArg Except.ok h

/-- C9: loading a transducer with an invertible placement matrix expressed in
the transducer's native units stores
`openlifu2slicer_matrix @ convert_transform(M, native_units)` in the
transform node, and re-extracting the placement via the save path
`inv(openlifu2slicer_matrix) @ transform_array` in the same native units
returns exactly the original matrix. -/
theorem transducer_placement_roundtrip (t : OpenlifuTransducer) (s : ℚ)
    (hu : get_xx2mm_scale_factor t.units = some s) (hs : s ≠ 0)
    (M : Mat4) (_hM : IsUnit M.det) :
    ∃ T, transducer_transform_to_store t (some M) (some t.units) = Except.ok T
      ∧ array_transform_from_scene t T = Except.ok M := by
  obtain ⟨A, hA, hA4⟩ := openlifu2slicer_matrix_eval t.units s hu
  have hconv := convert_transform_same_units t.units M s hu hs
  refine ⟨A.to4x4 * M, ?_, ?_⟩
  · unfold transducer_transform_to_store
    rw [hA]
    show (match convert_transform t.units M t.units with
      | Except.error e => Except.error e
      | Except.ok conv => Except.ok (A.to4x4 * conv)) = Except.ok (A.to4x4 * M)
    rw [hconv]
  · unfold array_transform_from_scene
    rw [hA]
    have hdet : IsUnit (lps_scale_mat4 s).det := by
      rw [lps_scale_mat4_det]
      exact isUnit_iff_ne_zero.2 (pow_ne_zero 3 hs)
    have heq : mat4_np_inv A.to4x4 * (A.to4x4 * M) = M := by
      rw [← Matrix.mul_assoc, hA4, mat4_np_inv_mul _ hdet, Matrix.one_mul]
    show Except.ok (mat4_np_inv A.to4x4 * (A.to4x4 * M)) = Except.ok M
    rw [heq]

/-- Concrete transducer for the C9 witness: native units are millimeters. -/
def egTransducerC9 : OpenlifuTransducer := ⟨"T1", "mm"⟩

/-- Witness for C9 at the identity placement matrix in native units "mm". -/
theorem transducer_placement_roundtrip_witness :
    ∃ T, transducer_transform_to_store egTransducerC9 (some 1)
          (some egTransducerC9.units) = Except.ok T
      ∧ array_transform_from_scene egTransducerC9 T = Except.ok 1 :=
  transducer_placement_roundtrip egTransducerC9 1 (by decide) (by norm_num) 1
    (by simp)

/-! ## Data model: scene nodes, openlifu objects, loaded objects, registry
state

The Slicer MRML scene is modelled as a list of `SceneNode`s. Only the node
attributes that the verified logic reads are modelled; a node's class is
abstracted by `NodeKind`. Dialog prompts shown to the user are recorded in
`notifications`, and answers to yes/no dialogs come from a `UIOracle`.
The ghost field `observations` records, for every invocation of the
re-entrant NodeAboutToBeRemoved handler, the list of loaded transducer ids
that the handler observed on entry (the event trace needed by claim C5). -/

/-- The MRML node classes distinguished by the observers of this logic. -/
inductive NodeKind
  | markupsFiducial
  | scalarVolume
  | model
  | transform
deriving DecidableEq

/-- A node of the MRML scene, restricted to the attributes this logic reads
or writes. -/
structure SceneNode where
  mrml_id : String
  kind : NodeKind
  name : String
  control_point_positions : List (Fin 3 → ℚ)
  control_point_labels : List String
  selected_color : List ℚ
  locked : Bool
  max_control_points : Option Nat

/-- An openlifu `Point` (external library value object), restricted to the
fields read by `targets.py`. -/
structure OpenlifuPoint where
  id : String
  name : String
  position : Fin 3 → ℚ
  dims : Fin 3 → Char
  units : String
  color : List ℚ

/-- An openlifu database `Session` (external library value object),
restricted to the fields read by the verified logic. -/
structure OpenlifuSession where
  id : String
  subject_id : String
  transducer_id : Option String
  protocol_id : Option String
  volume_id : Option String
  virtual_fit_approval_for_target_id : Option String
  transducer_tracking_approved : Bool

/-- `SlicerOpenLIFUTransducer` (`transducer.py` lines 20-25): the openlifu
transducer (the parameter-pack wrapper is flattened away) together with the
MRML ids of its model node and transform node. -/
structure SlicerOpenLIFUTransducer where
  transducer : OpenlifuTransducer
  model_node : String
  transform_node : String

/-- `SlicerOpenLIFUSession` (`session.py` lines 37-53): the openlifu session
(wrapper flattened away), the MRML id of its volume node, and the MRML ids of
its target fiducial nodes. -/
structure SlicerOpenLIFUSession where
  session : OpenlifuSession
  volume_node : Option String
  target_nodes : List String

/-- The `OpenLIFUDataParameterNode` (`OpenLIFUData.py` lines 77-80): the
process-wide registry of loaded objects. Protocol values carry no state the
verified logic reads, so `loaded_protocols` keeps only the dictionary keys;
`loaded_transducers` is a key-value dictionary modelled as an association
list with unique keys. -/
structure OpenLIFUDataParameterNode where
  loaded_protocols : List String
  loaded_transducers : List (String × SlicerOpenLIFUTransducer)
  loaded_session : Option SlicerOpenLIFUSession

/-- The whole mutable state visible to the verified logic: the parameter
node, the MRML scene, a counter for fresh MRML ids, the dialog trace, and
the ghost trace of registry snapshots observed by the re-entrant
NodeAboutToBeRemoved handler. -/
structure DataState where
  param : OpenLIFUDataParameterNode
  scene : List SceneNode
  next_node_id : Nat
  notifications : List String
  observations : List (List String)

/-- Answers the user gives to yes/no dialogs, by prompt text. -/
abbrev UIOracle := String → Bool

/-! ### Python dict operations on association lists -/

/-- Python `key in dict`. -/
def dict_contains {α : Type} (k : String) (d : List (String × α)) : Bool :=
  d.any (fun p => p.1 = k)

/-- Python `dict[key]` as an `Option`. -/
def dict_get {α : Type} (k : String) (d : List (String × α)) : Option α :=
  (d.find? (fun p => p.1 = k)).map Prod.snd

/-- Python `dict.pop(key)`, the removal part. -/
def dict_erase {α : Type} (k : String) (d : List (String × α)) :
    List (String × α) :=
  d.filter (fun p => p.1 ≠ k)

/-- Python `dict[key] = value`. -/
def dict_insert {α : Type} (k : String) (v : α) (d : List (String × α)) :
    List (String × α) :=
  if dict_contains k d then d.map (fun p => if p.1 = k then (k, v) else p)
  else d ++ [(k, v)]

/-- The keys of a dictionary. -/
def dict_keys {α : Type} (d : List (String × α)) : List String :=
  d.map Prod.fst

/-- Python `maybe_key in dict` where `maybe_key` can be `None` (`None` is
never a key of the modelled dictionaries). -/
def opt_dict_contains {α : Type} (k : Option String) (d : List (String × α)) :
    Bool :=
  match k with
  | none => false
  | some s => dict_contains s d

/-! ### Session entity methods (`session.py`) -/

/-- `get_transducer_id` (`session.py` lines 63-65). -/
def SlicerOpenLIFUSession.get_transducer_id (self : SlicerOpenLIFUSession) :
    Option String :=
  self.session.transducer_id

/-- `get_protocol_id` (`session.py` lines 67-69). -/
def SlicerOpenLIFUSession.get_protocol_id (self : SlicerOpenLIFUSession) :
    Option String :=
  self.session.protocol_id

/-- `transducer_is_valid` (`session.py` lines 75-77): whether this session's
transducer id is a key of the loaded-transducers dictionary. -/
def SlicerOpenLIFUSession.transducer_is_valid (self : SlicerOpenLIFUSession)
    (st : DataState) : Bool :=
  opt_dict_contains self.get_transducer_id st.param.loaded_transducers

/-- `protocol_is_valid` (`session.py` lines 79-81): whether this session's
protocol id is a key of the loaded-protocols dictionary. -/
def SlicerOpenLIFUSession.protocol_is_valid (self : SlicerOpenLIFUSession)
    (st : DataState) : Bool :=
  match self.get_protocol_id with
  | none => false
  | some pid => st.param.loaded_protocols.contains pid

/-- `volume_is_valid` (`session.py` lines 83-88): the volume node reference
is not None and a node with its MRML id is present in the scene. -/
def SlicerOpenLIFUSession.volume_is_valid (self : SlicerOpenLIFUSession)
    (st : DataState) : Bool :=
  match self.volume_node with
  | none => false
  | some v => (st.scene.find? (fun nd => nd.mrml_id = v)).isSome

/-- `approve_virtual_fit_for_target` (`session.py` lines 176-182): set or
clear the virtual-fit approval marker. The target argument is the target
node's name, which is what `fiducial_to_openlifu_point_id` extracts from the
fiducial node the source passes. -/
def SlicerOpenLIFUSession.approve_virtual_fit_for_target
    (self : SlicerOpenLIFUSession) (target : Option String) :
    SlicerOpenLIFUSession :=
  { self with session :=
      { self.session with virtual_fit_approval_for_target_id := target } }

/-- `virtual_fit_is_approved_for_target` (`session.py` lines 184-186). -/
def SlicerOpenLIFUSession.virtual_fit_is_approved_for_target
    (self : SlicerOpenLIFUSession) (target_name : String) : Bool :=
  self.session.virtual_fit_approval_for_target_id == some target_name

/-- `toggle_transducer_tracking_approval` (`session.py` lines 188-190). -/
def SlicerOpenLIFUSession.toggle_transducer_tracking_approval
    (self : SlicerOpenLIFUSession) : SlicerOpenLIFUSession :=
  { self with session :=
      { self.session with transducer_tracking_approved :=
          !self.session.transducer_tracking_approved } }

/-- `transducer_tracking_is_approved` (`session.py` lines 192-194). -/
def SlicerOpenLIFUSession.transducer_tracking_is_approved
    (self : SlicerOpenLIFUSession) : Bool :=
  self.session.transducer_tracking_approved

/-! ### Dialogs and notifications -/

/-- Record a user-visible message. -/
def addNotification (st : DataState) (msg : String) : DataState :=
  { st with notifications := msg :: st.notifications }

/-- `util.py` `sessionInvalidatedDialogDisplay`: shows the message and asks
whether the affiliated scene content should also be cleaned up. -/
def sessionInvalidatedDialogDisplay (st : DataState) (ui : UIOracle)
    (msg : String) : DataState × Bool :=
  (addNotification st msg, ui msg)

/-- `util.py` `ObjectBeingUnloadedMessageBox(...).customexec_()`: shows the
message and returns whether affiliated nodes should be cleaned up. -/
def objectBeingUnloadedMessageBox (st : DataState) (ui : UIOracle)
    (msg : String) : DataState × Bool :=
  (addNotification st msg, ui msg)

/-- `slicer.util.confirmYesNoDisplay`. -/
def confirmYesNoDisplay (st : DataState) (ui : UIOracle) (msg : String) :
    DataState × Bool :=
  (addNotification st msg, ui msg)

/-- `slicer.util.infoDisplay`. -/
def infoDisplay (st : DataState) (msg : String) : DataState :=
  addNotification st msg

/-- `slicer.util.errorDisplay`. -/
def errorDisplay (st : DataState) (msg : String) : DataState :=
  addNotification st msg

/-! ### Non-recursive registry operations -/

/-- `OpenLIFUPrePlanningLogic.revoke_approval_if_any`
(`OpenLIFUPrePlanning.py` lines 430-449). The target argument is the
fiducial node's name (`fiducial_to_openlifu_point_id` of the node the source
passes), or `none` for Python `None`. If there is no active session this
does nothing; if the approval marker matches the target (or the target is
`None`), an info dialog is raised, the approval is revoked, and the updated
session is written back to the parameter node. -/
def revoke_approval_if_any (st : DataState) (target : Option String) :
    DataState :=
  match st.param.loaded_session with
  | none => st
  | some session =>
    if (match target with
        | none => true
        | some nm => session.virtual_fit_is_approved_for_target nm) then
      let st := infoDisplay st
        "Virtual fit approval has been revoked because the approved target was modified."
      let session := session.approve_virtual_fit_for_target none
      { st with param := { st.param with loaded_session := some session } }
    else st

/-- `OpenLIFUPrePlanningWidget.onPointModified` (`OpenLIFUPrePlanning.py`
lines 242-244), fired for PointModifiedEvent on a watched fiducial node: the
UI refresh it performs does not touch the data state; the data-state effect
is `revoke_approval_if_any` on the modified node. -/
def onPointModified (st : DataState) (node_name : String) : DataState :=
  revoke_approval_if_any st (some node_name)

/-- `OpenLIFUPrePlanningWidget.onPointAddedOrRemoved`
(`OpenLIFUPrePlanning.py` lines 237-240), fired for PointAddedEvent and
PointRemovedEvent on a watched fiducial node: the UI refreshes it performs do
not touch the data state; the data-state effect is `revoke_approval_if_any`
on the changed node. -/
def onPointAddedOrRemoved (st : DataState) (node_name : String) : DataState :=
  revoke_approval_if_any st (some node_name)

/-- `OpenLIFUDataLogic._on_transducer_transform_modified`
(`OpenLIFUData.py` lines 1196-1214): fired when a loaded transducer's
transform node is modified. Revokes transducer-tracking approval if set, and
revokes virtual-fit approval if set and the moved transducer belongs to the
active session; each revocation is written back to the parameter node. -/
def on_transducer_transform_modified (st : DataState)
    (transducer : SlicerOpenLIFUTransducer) : DataState :=
  match st.param.loaded_session with
  | none => st
  | some session =>
    let step :=
      if session.transducer_tracking_is_approved then
        let session := session.toggle_transducer_tracking_approval
        (session,
          { st with param := { st.param with loaded_session := some session } })
      else (session, st)
    let session := step.1
    let st := step.2
    if session.session.virtual_fit_approval_for_target_id ≠ none
        ∧ session.get_transducer_id = some transducer.transducer.id then
      let session := session.approve_virtual_fit_for_target none
      { st with param := { st.param with loaded_session := some session } }
    else st

/-- `OpenLIFUDataLogic.remove_protocol` (`OpenLIFUData.py` lines 1238-1243):
raises `IndexError` when the protocol id is not loaded, otherwise pops it. -/
def remove_protocol (st : DataState) (protocol_id : String) :
    DataState × Except String Unit :=
  if st.param.loaded_protocols.contains protocol_id then
    ({ st with param := { st.param with loaded_protocols :=
        st.param.loaded_protocols.filter (fun p => p ≠ protocol_id) } },
      Except.ok ())
  else
    (st, Except.error ("No protocol with ID " ++ protocol_id
      ++ " appears to be loaded; cannot remove it."))

/-- `OpenLIFUDataLogic.get_current_session_transducer_id`
(`OpenLIFUData.py` lines 1078-1083). -/
def get_current_session_transducer_id (st : DataState) : Option String :=
  match st.param.loaded_session with
  | none => none
  | some s => s.get_transducer_id

/-- The two vtkMRMLNode-valued attributes of `SlicerOpenLIFUTransducer` that
the NodeAboutToBeRemoved observer distinguishes (`OpenLIFUData.py` lines
811-818). -/
inductive AffiliatedNodeAttr
  | transform_node
  | model_node
deriving DecidableEq

/-- Python `getattr(transducer, affiliated_node_attribute_name).GetID()`. -/
def SlicerOpenLIFUTransducer.affiliated_node
    (self : SlicerOpenLIFUTransducer) : AffiliatedNodeAttr → String
  | AffiliatedNodeAttr.transform_node => self.transform_node
  | AffiliatedNodeAttr.model_node => self.model_node

/-! ### The event-driven registry operations

`slicer.mrmlScene.RemoveNode` synchronously fires the NodeAboutToBeRemoved
and NodeRemoved observers registered by the OpenLIFUData widget
(`OpenLIFUData.py` lines 810-828) and the OpenLIFUPrePlanning widget
(`OpenLIFUPrePlanning.py` lines 217-223), and those observers re-enter the
registry logic, which can remove further nodes. The block below models this
synchronous re-entry; `fuel` bounds the re-entry depth (every theorem below
supplies enough fuel), and a function invoked with fuel 0 leaves the state
unchanged. -/

mutual

/-- Models `slicer.mrmlScene.RemoveNode(node)` for a node given by MRML id:
runs the NodeAboutToBeRemoved observers (`OpenLIFUDataWidget
.onNodeAboutToBeRemoved`, lines 810-818, dispatching on the node class),
removes the node from the scene, then runs the NodeRemoved observers
(`OpenLIFUDataWidget.onNodeRemoved`, lines 820-828, which re-validates the
session when a volume node is removed, and
`OpenLIFUPrePlanningWidget.onNodeRemoved`, lines 217-223, which revokes any
virtual-fit approval for a removed fiducial node). Removing a node that is
not in the scene is a no-op. -/
def scene_remove_node (fuel : Nat) (st : DataState) (ui : UIOracle)
    (node_id : String) : DataState :=
  match fuel with
  | 0 => st
  | Nat.succ n =>
    match st.scene.find? (fun nd => nd.mrml_id = node_id) with
    | none => st
    | some nd =>
      let st1 :=
        if nd.kind = NodeKind.transform then
          on_transducer_affiliated_node_about_to_be_removed n st ui node_id
            AffiliatedNodeAttr.transform_node
        else st
      let st2 :=
        if nd.kind = NodeKind.model then
          on_transducer_affiliated_node_about_to_be_removed n st1 ui node_id
            AffiliatedNodeAttr.model_node
        else st1
      let st3 :=
        { st2 with scene := st2.scene.filter (fun x => x.mrml_id ≠ node_id) }
      let st4 :=
        if nd.kind = NodeKind.scalarVolume then (validate_session n st3 ui).1
        else st3
      if nd.kind = NodeKind.markupsFiducial then
        revoke_approval_if_any st4 (some nd.name)
      else st4
termination_by (fuel, 0)

/-- `OpenLIFUDataLogic.on_transducer_affiliated_node_about_to_be_removed`
(`OpenLIFUData.py` lines 1309-1341). The ghost `observations` entry records
the registry keys this re-entrant handler sees on entry. At most one loaded
transducer may own the node (the source asserts this; an assertion failure
stops the handler); if one does, the user is notified, the transducer is
removed (keeping or cleaning its other nodes per the user's choice), and the
active session is re-validated. -/
def on_transducer_affiliated_node_about_to_be_removed (fuel : Nat)
    (st : DataState) (ui : UIOracle) (node_mrml_id : String)
    (attr : AffiliatedNodeAttr) : DataState :=
  match fuel with
  | 0 => st
  | Nat.succ n =>
    let st := { st with
                observations :=
                  dict_keys st.param.loaded_transducers :: st.observations }
    let matching : List String := (st.param.loaded_transducers.filter
        (fun p => p.2.affiliated_node attr = node_mrml_id)).map Prod.fst
    if 2 ≤ matching.length then addNotification st "AssertionError"
    else
      match matching with
      | [] => st
      | tid :: _ =>
        let step := objectBeingUnloadedMessageBox st ui
          ("The transducer with id " ++ tid
            ++ " will be unloaded because an affiliated node was removed from the scene.")
        let st := (remove_transducer n step.1 ui tid step.2).1
        (validate_session n st ui).1
termination_by (fuel, 0)

/-- `OpenLIFUDataLogic.remove_transducer` (`OpenLIFUData.py` lines
1293-1307): raises `IndexError` (mutating nothing) when the id is not
loaded; otherwise pops the transducer out of the loaded-objects dictionary
and only then, when `clean_up_scene` holds, clears its affiliated nodes. -/
def remove_transducer (fuel : Nat) (st : DataState) (ui : UIOracle)
    (transducer_id : String) (clean_up_scene : Bool) :
    DataState × Except String Unit :=
  match fuel with
  | 0 => (st, Except.ok ())
  | Nat.succ n =>
    if dict_contains transducer_id st.param.loaded_transducers then
      let popped := dict_get transducer_id st.param.loaded_transducers
      let st := { st with
                  param := { st.param with
                             loaded_transducers :=
                               dict_erase transducer_id
                                 st.param.loaded_transducers } }
      match popped, clean_up_scene with
      | some transducer, true =>
        (transducer_clear_nodes n st ui transducer, Except.ok ())
      | _, _ => (st, Except.ok ())
    else
      (st, Except.error ("No transducer with ID " ++ transducer_id
        ++ " appears to be loaded; cannot remove it."))
termination_by (fuel, 0)

/-- `SlicerOpenLIFUTransducer.clear_nodes` (`transducer.py` lines 73-76):
remove the model node and then the transform node from the scene. -/
def transducer_clear_nodes (fuel : Nat) (st : DataState) (ui : UIOracle)
    (transducer : SlicerOpenLIFUTransducer) : DataState :=
  match fuel with
  | 0 => st
  | Nat.succ n =>
    let st := scene_remove_node n st ui transducer.model_node
    scene_remove_node n st ui transducer.transform_node
termination_by (fuel, 0)

/-- `OpenLIFUDataLogic.validate_session` (`OpenLIFUData.py` lines 948-985):
returns false when there is no active session; otherwise checks the
transducer, the volume, and the protocol in that order, and on the first
failure raises the session-invalidated dialog, clears the session (cleaning
up the scene if the user so chooses) and returns false; returns true when
all three are present. -/
def validate_session (fuel : Nat) (st : DataState) (ui : UIOracle) :
    DataState × Bool :=
  match fuel with
  | 0 => (st, false)
  | Nat.succ n =>
    match st.param.loaded_session with
    | none => (st, false)
    | some loaded_session =>
      if loaded_session.transducer_is_valid st = false then
        let step := sessionInvalidatedDialogDisplay st ui
          "The transducer that was in use by the active session is now missing. The session will be unloaded."
        (clear_session n step.1 ui step.2, false)
      else if loaded_session.volume_is_valid st = false then
        let step := sessionInvalidatedDialogDisplay st ui
          "The volume that was in use by the active session is now missing. The session will be unloaded."
        (clear_session n step.1 ui step.2, false)
      else if loaded_session.protocol_is_valid st = false then
        let step := sessionInvalidatedDialogDisplay st ui
          "The protocol that was in use by the active session is now missing. The session will be unloaded."
        (clear_session n step.1 ui step.2, false)
      else (st, true)
termination_by (fuel, 0)

/-- `OpenLIFUDataLogic.clear_session` (`OpenLIFUData.py` lines 905-923):
no-op when there is no active session; otherwise the parameter node's
session reference is cleared first, and then, when `clean_up_scene` holds,
the session's volume and target nodes are removed from the scene and its
transducer and protocol are removed from the loaded-object dictionaries
(each only if still present). -/
def clear_session (fuel : Nat) (st : DataState) (ui : UIOracle)
    (clean_up_scene : Bool) : DataState :=
  match fuel with
  | 0 => st
  | Nat.succ n =>
    match st.param.loaded_session with
    | none => st
    | some loaded_session =>
      let st := { st with param := { st.param with loaded_session := none } }
      if clean_up_scene then
        let st := clear_volume_and_target_nodes n st ui loaded_session
        let st :=
          match loaded_session.get_transducer_id with
          | some tid =>
            if dict_contains tid st.param.loaded_transducers then
              (remove_transducer n st ui tid true).1
            else st
          | none => st
        match loaded_session.get_protocol_id with
        | some pid =>
          if st.param.loaded_protocols.contains pid then
            (remove_protocol st pid).1
          else st
        | none => st
      else st
termination_by (fuel, 0)

/-- `SlicerOpenLIFUSession.clear_volume_and_target_nodes` (`session.py`
lines 106-110): remove the session's volume node (when not None) and each
of its target nodes from the scene. -/
def clear_volume_and_target_nodes (fuel : Nat) (st : DataState)
    (ui : UIOracle) (loaded_session : SlicerOpenLIFUSession) : DataState :=
  match fuel with
  | 0 => st
  | Nat.succ n =>
    let st :=
      match loaded_session.volume_node with
      | some v => scene_remove_node n st ui v
      | none => st
    remove_nodes_loop n st ui loaded_session.target_nodes
termination_by (fuel, 0)

/-- Removes the nodes with the given MRML ids from the scene, in order (the
`for` loops in `clear_volume_and_target_nodes` and
`openlifu_point_to_fiducial`). -/
def remove_nodes_loop (fuel : Nat) (st : DataState) (ui : UIOracle)
    (ids : List String) : DataState :=
  match ids with
  | [] => st
  | nid :: rest => remove_nodes_loop fuel (scene_remove_node fuel st ui nid) ui rest
termination_by (fuel, ids.length + 1)

end

/-! ### Loading transducers and creating fiducial nodes -/

/-- Allocate a fresh MRML node id (models the scene assigning a unique id in
`AddNewNodeByClass`). -/
def fresh_node_id (st : DataState) : String × DataState :=
  ("vtkMRMLNode" ++ toString st.next_node_id,
   { st with next_node_id := st.next_node_id + 1 })

/-- `SlicerOpenLIFUTransducer.initialize_from_openlifu_transducer`
(`transducer.py` lines 27-71): adds a model node and a transform node to the
scene (named after the transducer id), computes the transform matrix
`openlifu2slicer_matrix @ convert_transform(matrix, units)` and stores it in
the transform node. If the matrix computation raises (unknown units), the
two nodes have already been added and remain in the scene, mirroring the
Python exception propagating after node creation. -/
def initialize_from_openlifu_transducer (st : DataState)
    (transducer : OpenlifuTransducer) (transducer_matrix : Option Mat4)
    (transducer_matrix_units : Option String) :
    DataState × Except String SlicerOpenLIFUTransducer :=
  let step1 := fresh_node_id st
  let model_id := step1.1
  let st := step1.2
  let model_node : SceneNode :=
    ⟨model_id, NodeKind.model, transducer.id, [], [], [], false, none⟩
  let st := { st with scene := model_node :: st.scene }
  let step2 := fresh_node_id st
  let transform_id := step2.1
  let st := step2.2
  let transform_node : SceneNode :=
    ⟨transform_id, NodeKind.transform, transducer.id ++ "-matrix", [], [], [],
      false, none⟩
  let st := { st with scene := transform_node :: st.scene }
  match transducer_transform_to_store transducer transducer_matrix
      transducer_matrix_units with
  | Except.error e => (st, Except.error e)
  | Except.ok _ =>
    (st, Except.ok ⟨transducer, model_id, transform_id⟩)

/-- `OpenLIFUDataLogic.load_transducer_from_openlifu` (`OpenLIFUData.py`
lines 1249-1291). If the transducer id is the one owned by the active
session, an error dialog is raised and the load is refused (returns `None`,
nothing mutated beyond the dialog trace). Otherwise, on an id collision the
user is prompted unless `replace_confirmed`, and the colliding transducer is
removed before the new one is constructed and registered. -/
def load_transducer_from_openlifu (fuel : Nat) (st : DataState)
    (ui : UIOracle) (transducer : OpenlifuTransducer)
    (transducer_matrix : Option Mat4) (transducer_matrix_units : Option String)
    (replace_confirmed : Bool) :
    DataState × Except String (Option SlicerOpenLIFUTransducer) :=
  if some transducer.id = get_current_session_transducer_id st then
    (errorDisplay st ("A transducer with ID " ++ transducer.id
        ++ " is in use by the current session. Not loading it."),
      Except.ok none)
  else
    let step :=
      if dict_contains transducer.id st.param.loaded_transducers then
        if replace_confirmed then
          ((remove_transducer fuel st ui transducer.id true).1, true)
        else
          let ask := confirmYesNoDisplay st ui
            ("A transducer with ID " ++ transducer.id
              ++ " is already loaded. Reload it?")
          if ask.2 then
            ((remove_transducer fuel ask.1 ui transducer.id true).1, true)
          else (ask.1, false)
      else (st, true)
    if step.2 = false then (step.1, Except.ok none)
    else
      match initialize_from_openlifu_transducer step.1 transducer
          transducer_matrix transducer_matrix_units with
      | (st, Except.error e) => (st, Except.error e)
      | (st, Except.ok newly_loaded_transducer) =>
        ({ st with param := { st.param with
            loaded_transducers := dict_insert transducer.id
              newly_loaded_transducer st.param.loaded_transducers } },
          Except.ok (some newly_loaded_transducer))

/-! ### Targets (`targets.py`) -/

/-- Matrix-vector product of a 3x3 integer matrix with a rational vector
(the `@` in `targets.py` line 44). -/
def mat3_mulvec (M : Mat3i) (v : Fin 3 → ℚ) : Fin 3 → ℚ :=
  fun i => (M i 0 : ℚ) * v 0 + (M i 1 : ℚ) * v 1 + (M i 2 : ℚ) * v 2

/-- `fiducial_to_openlifu_point_id` (`targets.py` lines 59-61): the openlifu
point id of a fiducial node is its node name. -/
def fiducial_to_openlifu_point_id (fiducial_node : SceneNode) : String :=
  fiducial_node.name

/-- `openlifu_point_to_fiducial` (`targets.py` lines 27-57): removes every
scene node whose name equals the point id, adds a fresh fiducial node with
that name, converts the point position to Slicer RAS millimeters, and sets
the display color, the lock flag, the single control point and its label.
If the point's dims or units are unrecognized, Python raises after the named
node was added; the partially initialized node is then left in the scene and
the error is reported. -/
def openlifu_point_to_fiducial (fuel : Nat) (st : DataState) (ui : UIOracle)
    (point : OpenlifuPoint) : DataState × Except String SceneNode :=
  let node_name := point.id
  let existing : List String :=
    (st.scene.filter (fun nd => nd.name = node_name)).map SceneNode.mrml_id
  let st := remove_nodes_loop fuel st ui existing
  let step := fresh_node_id st
  let node_id := step.1
  let st := step.2
  match get_xxx2ras_matrix (point.dims 0) (point.dims 1) (point.dims 2),
      get_xx2mm_scale_factor point.units with
  | Except.ok R, some s =>
    let position : Fin 3 → ℚ := fun i => s * mat3_mulvec R point.position i
    let fiducial_node : SceneNode :=
      ⟨node_id, NodeKind.markupsFiducial, node_name, [position], [point.name],
        point.color, true, some 1⟩
    ({ st with scene := fiducial_node :: st.scene }, Except.ok fiducial_node)
  | _, _ =>
    let fiducial_node : SceneNode :=
      ⟨node_id, NodeKind.markupsFiducial, node_name, [], [], [], false, none⟩
    ({ st with scene := fiducial_node :: st.scene }, Except.error "KeyError")

/-- The RAS dims triple `('R','A','S')`. -/
def rasDims : Fin 3 → Char := ![ 'R', 'A', 'S' ]

/-- `fiducial_to_openlifu_point` (`targets.py` lines 78-91): raises
`ValueError` when the fiducial node has no control points; otherwise returns
an openlifu Point in RAS coordinates whose position is the first control
point, whose name is the first control point's label, whose id is the node
name, with dims `('R','A','S')` and units `"mm"` (and the external library's
default color). -/
def fiducial_to_openlifu_point (fiducial_node : SceneNode) :
    Except String OpenlifuPoint :=
  match fiducial_node.control_point_positions with
  | pos :: _ =>
    Except.ok
      { id := fiducial_to_openlifu_point_id fiducial_node
        name := fiducial_node.control_point_labels.headD ""
        position := pos
        dims := rasDims
        units := "mm"
        color := [] }
  | [] =>
    Except.error ("Fiducial node " ++ fiducial_node.mrml_id
      ++ " does not have any points.")

/-! ## Lemmas about the dictionary operations -/

theorem dict_keys_mem_contains {α : Type} {d : List (String × α)} {k : String}
    (h : k ∈ dict_keys d) : dict_contains k d = true := by
  simp only [dict_keys, List.mem_map] at h
  obtain ⟨p, hp, rfl⟩ := h
  simp only [dict_contains, List.any_eq_true]
  exact ⟨p, hp, by simp⟩

theorem dict_contains_erase_self {α : Type} (d : List (String × α))
    (k : String) : dict_contains k (dict_erase k d) = false := by
  simp [dict_contains, dict_erase, List.any_eq_true, List.mem_filter]

theorem dict_contains_of_erase {α : Type} {d : List (String × α)}
    {k k' : String} (h : dict_contains k (dict_erase k' d) = true) :
    dict_contains k d = true := by
  simp only [dict_contains, dict_erase, List.any_eq_true, List.mem_filter]
    at h ⊢
  obtain ⟨p, ⟨hp, -⟩, hk⟩ := h
  exact ⟨p, hp, hk⟩

theorem dict_get_isSome_of_contains {α : Type} {d : List (String × α)}
    {k : String} (h : dict_contains k d = true) :
    ∃ v, dict_get k d = some v := by
  simp only [dict_contains, List.any_eq_true] at h
  obtain ⟨p, hp, hpk⟩ := h
  have hfind : (d.find? (fun p => p.1 = k)).isSome := by
    rw [List.find?_isSome]
    exact ⟨p, hp, hpk⟩
  obtain ⟨q, hq⟩ := Option.isSome_iff_exists.mp hfind
  exact ⟨q.2, by simp [dict_get, hq]⟩

/-! ## Preservation properties of the event-driven operations -/

/-- Preservation properties that every event-driven registry operation
enjoys, and which re-entrant notification handling relies on: the scene only
loses nodes, the loaded-transducer dictionary only loses keys, a cleared
active session stays cleared, and every registry snapshot recorded by the
re-entrant NodeAboutToBeRemoved handler mentions only transducers that were
loaded when the operation started. -/
def StepPres (st st' : DataState) : Prop :=
  (∀ x ∈ st'.scene, x ∈ st.scene)
  ∧ (∀ k, dict_contains k st'.param.loaded_transducers = true →
      dict_contains k st.param.loaded_transducers = true)
  ∧ (st.param.loaded_session = none → st'.param.loaded_session = none)
  ∧ ∃ new, st'.observations = new ++ st.observations
      ∧ ∀ o ∈ new, ∀ k ∈ o,
          dict_contains k st.param.loaded_transducers = true

theorem StepPres.refl (st : DataState) : StepPres st st :=
  ⟨fun _ h => h, fun _ h => h, fun h => h, [], rfl, by simp⟩

theorem StepPres.trans {s1 s2 s3 : DataState} (h12 : StepPres s1 s2)
    (h23 : StepPres s2 s3) : StepPres s1 s3 := by
  obtain ⟨a12, b12, c12, n12, e12, f12⟩ := h12
  obtain ⟨a23, b23, c23, n23, e23, f23⟩ := h23
  refine ⟨fun x h => a12 x (a23 x h), fun k h => b12 k (b23 k h),
    fun h => c23 (c12 h), n23 ++ n12,
    by rw [e23, e12, List.append_assoc], ?_⟩
  intro o ho k hk
  rcases List.mem_append.mp ho with h | h
  · exact b12 k (f23 o h k hk)
  · exact f12 o h k hk

/-- A state change that keeps the scene, the transducer dictionary and the
observation trace, and does not resurrect a cleared session, is a
preservation step. -/
theorem StepPres.of_parts {st st' : DataState}
    (hscene : ∀ x ∈ st'.scene, x ∈ st.scene)
    (htr : ∀ k, dict_contains k st'.param.loaded_transducers = true →
        dict_contains k st.param.loaded_transducers = true)
    (hsess : st.param.loaded_session = none →
        st'.param.loaded_session = none)
    (hobs : st'.observations = st.observations) : StepPres st st' :=
  ⟨hscene, htr, hsess, [], hobs, by simp⟩

theorem addNotification_pres (st : DataState) (msg : String) :
    StepPres st (addNotification st msg) :=
  StepPres.of_parts (fun _ h => h) (fun _ h => h) (fun h => h) rfl

theorem revoke_approval_if_any_pres (st : DataState) (target : Option String) :
    StepPres st (revoke_approval_if_any st target) := by
  unfold revoke_approval_if_any
  cases h : st.param.loaded_session with
  | none => exact StepPres.refl st
  | some s =>
    dsimp only
    split
    · exact StepPres.of_parts (fun _ h => h) (fun _ h => h)
        (fun hn => by rw [h] at hn; cases hn) rfl
    · exact StepPres.refl st

theorem remove_protocol_pres (st : DataState) (pid : String) :
    StepPres st (remove_protocol st pid).1 := by
  unfold remove_protocol
  split
  · exact StepPres.of_parts (fun _ h => h) (fun _ h => h) (fun h => h) rfl
  · exact StepPres.refl st

theorem remove_nodes_loop_zero (st : DataState) (ui : UIOracle)
    (ids : List String) : remove_nodes_loop 0 st ui ids = st := by
  induction ids generalizing st with
  | nil => rw [remove_nodes_loop]
  | cons nid rest ih =>
    rw [remove_nodes_loop, scene_remove_node]
    exact ih _

/-- Every event-driven registry operation is a preservation step, at every
fuel. -/
theorem block_pres (fuel : Nat) :
    (∀ st ui nid, StepPres st (scene_remove_node fuel st ui nid))
    ∧ (∀ st ui nid attr, StepPres st
        (on_transducer_affiliated_node_about_to_be_removed fuel st ui nid attr))
    ∧ (∀ st ui tid c, StepPres st (remove_transducer fuel st ui tid c).1)
    ∧ (∀ st ui t, StepPres st (transducer_clear_nodes fuel st ui t))
    ∧ (∀ st ui, StepPres st (validate_session fuel st ui).1)
    ∧ (∀ st ui c, StepPres st (clear_session fuel st ui c))
    ∧ (∀ st ui s, StepPres st (clear_volume_and_target_nodes fuel st ui s))
    ∧ (∀ st ui ids, StepPres st (remove_nodes_loop fuel st ui ids)) := by
  induction fuel with
  | zero =>
    refine ⟨?_, ?_, ?_, ?_, ?_, ?_, ?_, ?_⟩
    · intro st ui nid
      rw [scene_remove_node]
      exact StepPres.refl st
    · intro st ui nid attr
      rw [on_transducer_affiliated_node_about_to_be_removed]
      exact StepPres.refl st
    · intro st ui tid c
      rw [remove_transducer]
      exact StepPres.refl st
    · intro st ui t
      rw [transducer_clear_nodes]
      exact StepPres.refl st
    · intro st ui
      rw [validate_session]
      exact StepPres.refl st
    · intro st ui c
      rw [clear_session]
      exact StepPres.refl st
    · intro st ui s
      rw [clear_volume_and_target_nodes]
      exact StepPres.refl st
    · intro st ui ids
      rw [remove_nodes_loop_zero]
      exact StepPres.refl st
  | succ n ih =>
    obtain ⟨ihS, ihH, ihR, ihC, ihV, ihCS, ihCV, ihL⟩ := ih
    have hS : ∀ st ui nid, StepPres st (scene_remove_node (n + 1) st ui nid) := by
      intro st ui nid
      rw [scene_remove_node]
      cases hf : st.scene.find? (fun nd => nd.mrml_id = nid) with
      | none => exact StepPres.refl st
      | some nd =>
        set s1 : DataState := (if nd.kind = NodeKind.transform then
            on_transducer_affiliated_node_about_to_be_removed n st ui nid
              AffiliatedNodeAttr.transform_node
          else st) with hs1
        have h1 : StepPres st s1 := by
          rw [hs1]
          split
          · exact ihH st ui nid AffiliatedNodeAttr.transform_node
          · exact StepPres.refl st
        set s2 : DataState := (if nd.kind = NodeKind.model then
            on_transducer_affiliated_node_about_to_be_removed n s1 ui nid
              AffiliatedNodeAttr.model_node
          else s1) with hs2
        have h2 : StepPres s1 s2 := by
          rw [hs2]
          split
          · exact ihH s1 ui nid AffiliatedNodeAttr.model_node
          · exact StepPres.refl s1
        set s3 : DataState :=
          { s2 with scene := s2.scene.filter (fun x => x.mrml_id ≠ nid) }
          with hs3
        have h3 : StepPres s2 s3 := by
          rw [hs3]
          exact StepPres.of_parts (fun x hx => (List.mem_filter.mp hx).1)
            (fun _ h => h) (fun h => h) rfl
        set s4 : DataState := (if nd.kind = NodeKind.scalarVolume then
            (validate_session n s3 ui).1 else s3) with hs4
        have h4 : StepPres s3 s4 := by
          rw [hs4]
          split
          · exact ihV s3 ui
          · exact StepPres.refl s3
        have h5 : StepPres s4
            (if nd.kind = NodeKind.markupsFiducial then
              revoke_approval_if_any s4 (some nd.name) else s4) := by
          split
          · exact revoke_approval_if_any_pres s4 (some nd.name)
          · exact StepPres.refl s4
        exact (((h1.trans h2).trans h3).trans h4).trans h5
    have hL : ∀ st ui ids, StepPres st (remove_nodes_loop (n + 1) st ui ids) := by
      intro st ui ids
      induction ids generalizing st with
      | nil =>
        rw [remove_nodes_loop]
        exact StepPres.refl st
      | cons nid rest ihrest =>
        rw [remove_nodes_loop]
        exact (hS st ui nid).trans (ihrest _)
    have hH : ∀ st ui nid attr, StepPres st
        (on_transducer_affiliated_node_about_to_be_removed (n + 1) st ui nid
          attr) := by
      intro st ui nid attr
      rw [on_transducer_affiliated_node_about_to_be_removed]
      set s1 : DataState := { st with
          observations :=
            dict_keys st.param.loaded_transducers :: st.observations }
        with hs1
      have h1 : StepPres st s1 := by
        rw [hs1]
        exact ⟨fun _ h => h, fun _ h => h, fun h => h,
          [dict_keys st.param.loaded_transducers], rfl, by
            intro o ho k hk
            simp only [List.mem_singleton] at ho
            subst ho
            exact dict_keys_mem_contains hk⟩
      dsimp only
      split
      · exact h1.trans (addNotification_pres s1 "AssertionError")
      · split
        · exact h1
        · rename_i tid rest heq
          exact h1.trans ((addNotification_pres s1 _).trans
            ((ihR (addNotification s1 ("The transducer with id " ++ tid
                ++ " will be unloaded because an affiliated node was removed from the scene."))
              ui tid (ui ("The transducer with id " ++ tid
                ++ " will be unloaded because an affiliated node was removed from the scene."))).trans
              (ihV _ ui)))
    have hR : ∀ st ui tid c, StepPres st (remove_transducer (n + 1) st ui tid c).1 := by
      intro st ui tid c
      rw [remove_transducer]
      split
      · set s1 : DataState := { st with
            param := { st.param with
              loaded_transducers :=
                dict_erase tid st.param.loaded_transducers } } with hs1
        have h1 : StepPres st s1 := by
          rw [hs1]
          exact StepPres.of_parts (fun _ h => h)
            (fun k hk => dict_contains_of_erase hk) (fun h => h) rfl
        cases hp : dict_get tid st.param.loaded_transducers with
        | none => exact h1
        | some t =>
          cases c with
          | true => exact h1.trans (ihC s1 ui t)
          | false => exact h1
      · exact StepPres.refl st
    have hC : ∀ st ui t, StepPres st (transducer_clear_nodes (n + 1) st ui t) := by
      intro st ui t
      rw [transducer_clear_nodes]
      exact (ihS st ui t.model_node).trans (ihS _ ui t.transform_node)
    have hV : ∀ st ui, StepPres st (validate_session (n + 1) st ui).1 := by
      intro st ui
      rw [validate_session]
      cases hsess : st.param.loaded_session with
      | none => exact StepPres.refl st
      | some s =>
        dsimp only [sessionInvalidatedDialogDisplay]
        split
        · exact (addNotification_pres st _).trans (ihCS _ ui _)
        · split
          · exact (addNotification_pres st _).trans (ihCS _ ui _)
          · split
            · exact (addNotification_pres st _).trans (ihCS _ ui _)
            · exact StepPres.refl st
    have hCS : ∀ st ui c, StepPres st (clear_session (n + 1) st ui c) := by
      intro st ui c
      rw [clear_session]
      cases hsess : st.param.loaded_session with
      | none => exact StepPres.refl st
      | some s =>
        set s1 : DataState := { st with
            param := { st.param with loaded_session := none } } with hs1
        have h1 : StepPres st s1 := by
          rw [hs1]
          exact StepPres.of_parts (fun _ h => h) (fun _ h => h) (fun _ => rfl)
            rfl
        cases c with
        | false => exact h1
        | true =>
          set s2 : DataState := clear_volume_and_target_nodes n s1 ui s
            with hs2
          have h2 : StepPres s1 s2 := by
            rw [hs2]
            exact ihCV s1 ui s
          set s3 : DataState := (match s.get_transducer_id with
              | some tid =>
                if dict_contains tid s2.param.loaded_transducers then
                  (remove_transducer n s2 ui tid true).1
                else s2
              | none => s2) with hs3
          have h3 : StepPres s2 s3 := by
            rw [hs3]
            cases s.get_transducer_id with
            | none => exact StepPres.refl s2
            | some tid =>
              dsimp only
              split
              · exact ihR s2 ui tid true
              · exact StepPres.refl s2
          have h4 : StepPres s3
              (match s.get_protocol_id with
                | some pid =>
                  if s3.param.loaded_protocols.contains pid then
                    (remove_protocol s3 pid).1
                  else s3
                | none => s3) := by
            cases s.get_protocol_id with
            | none => exact StepPres.refl s3
            | some pid =>
              dsimp only
              split
              · exact remove_protocol_pres s3 pid
              · exact StepPres.refl s3
          exact ((h1.trans h2).trans h3).trans h4
    have hCV : ∀ st ui s, StepPres st
        (clear_volume_and_target_nodes (n + 1) st ui s) := by
      intro st ui s
      rw [clear_volume_and_target_nodes]
      have h1 : StepPres st
          (match s.volume_node with
            | some v => scene_remove_node n st ui v
            | none => st) := by
        cases s.volume_node with
        | none => exact StepPres.refl st
        | some v => exact ihS st ui v
      refine h1.trans ?_
      exact ihL _ ui _
    exact ⟨hS, hH, hR, hC, hV, hCS, hCV, hL⟩

theorem revoke_approval_if_any_scene (st : DataState) (target : Option String) :
    (revoke_approval_if_any st target).scene = st.scene := by
  unfold revoke_approval_if_any
  cases st.param.loaded_session with
  | none => rfl
  | some s =>
    dsimp only
    split
    · rfl
    · rfl

/-- `remove_protocol` does not touch the active-session reference. -/
theorem remove_protocol_session (st : DataState) (pid : String) :
    (remove_protocol st pid).1.param.loaded_session
      = st.param.loaded_session := by
  unfold remove_protocol
  split
  · rfl
  · rfl

/-- With enough fuel for one removal, `scene_remove_node` leaves only nodes
that were already in the scene and whose MRML id differs from the removed
one. -/
theorem scene_remove_node_removes (n : Nat) (st : DataState) (ui : UIOracle)
    (nid : String) :
    ∀ x ∈ (scene_remove_node (n + 1) st ui nid).scene,
      x ∈ st.scene ∧ x.mrml_id ≠ nid := by
  obtain ⟨bS, bH, bR, bC, bV, bCS, bCV, bL⟩ := block_pres n
  rw [scene_remove_node]
  cases hf : st.scene.find? (fun nd => nd.mrml_id = nid) with
  | none =>
    intro x hx
    refine ⟨hx, ?_⟩
    have h := List.find?_eq_none.mp hf x hx
    simpa using h
  | some nd =>
    set s1 : DataState := (if nd.kind = NodeKind.transform then
        on_transducer_affiliated_node_about_to_be_removed n st ui nid
          AffiliatedNodeAttr.transform_node
      else st) with hs1
    have p1 : ∀ x ∈ s1.scene, x ∈ st.scene := by
      rw [hs1]
      split
      · exact (bH st ui nid AffiliatedNodeAttr.transform_node).1
      · exact fun x hx => hx
    set s2 : DataState := (if nd.kind = NodeKind.model then
        on_transducer_affiliated_node_about_to_be_removed n s1 ui nid
          AffiliatedNodeAttr.model_node
      else s1) with hs2
    have p2 : ∀ x ∈ s2.scene, x ∈ s1.scene := by
      rw [hs2]
      split
      · exact (bH s1 ui nid AffiliatedNodeAttr.model_node).1
      · exact fun x hx => hx
    set s3 : DataState :=
      { s2 with scene := s2.scene.filter (fun x => x.mrml_id ≠ nid) } with hs3
    have p3 : ∀ x ∈ s3.scene, x ∈ s2.scene ∧ x.mrml_id ≠ nid := by
      rw [hs3]
      intro x hx
      have h := List.mem_filter.mp hx
      exact ⟨h.1, by simpa using h.2⟩
    set s4 : DataState := (if nd.kind = NodeKind.scalarVolume then
        (validate_session n s3 ui).1 else s3) with hs4
    have p4 : ∀ x ∈ s4.scene, x ∈ s3.scene := by
      rw [hs4]
      split
      · exact (bV s3 ui).1
      · exact fun x hx => hx
    show ∀ x ∈ (if nd.kind = NodeKind.markupsFiducial then
        revoke_approval_if_any s4 (some nd.name) else s4).scene,
      x ∈ st.scene ∧ x.mrml_id ≠ nid
    intro x hx
    have hx4 : x ∈ s4.scene := by
      revert hx
      split
      · rw [revoke_approval_if_any_scene]
        exact fun h => h
      · exact fun h => h
    obtain ⟨h3, hne⟩ := p3 x (p4 x hx4)
    exact ⟨p1 x (p2 x h3), hne⟩

/-- With enough fuel, the node-removal loop leaves only nodes that were in
the scene and whose MRML id is not among the removed ids. -/
theorem remove_nodes_loop_removes (n : Nat) (st : DataState) (ui : UIOracle)
    (ids : List String) :
    ∀ x ∈ (remove_nodes_loop (n + 1) st ui ids).scene,
      x ∈ st.scene ∧ x.mrml_id ∉ ids := by
  induction ids generalizing st with
  | nil =>
    rw [remove_nodes_loop]
    exact fun x hx => ⟨hx, by simp⟩
  | cons nid rest ih =>
    rw [remove_nodes_loop]
    intro x hx
    obtain ⟨hx1, hnotin⟩ := ih (scene_remove_node (n + 1) st ui nid) x hx
    obtain ⟨hx0, hne⟩ := scene_remove_node_removes n st ui nid x hx1
    refine ⟨hx0, ?_⟩
    simp only [List.mem_cons]
    rintro (rfl | hmem)
    · exact hne rfl
    · exact hnotin hmem

/-- With enough fuel, `clear_session` always leaves the parameter node with
no active session. -/
theorem clear_session_clears (m : Nat) (st : DataState) (ui : UIOracle)
    (c : Bool) : (clear_session (m + 1) st ui c).param.loaded_session = none := by
  obtain ⟨bS, bH, bR, bC, bV, bCS, bCV, bL⟩ := block_pres m
  rw [clear_session]
  cases hsess : st.param.loaded_session with
  | none => exact hsess
  | some s =>
    set s1 : DataState := { st with
        param := { st.param with loaded_session := none } } with hs1
    have h1 : s1.param.loaded_session = none := by
      rw [hs1]
    cases c with
    | false => exact h1
    | true =>
      set s2 : DataState := clear_volume_and_target_nodes m s1 ui s with hs2
      have h2 : s2.param.loaded_session = none := by
        rw [hs2]
        exact (bCV s1 ui s).2.2.1 h1
      set s3 : DataState := (match s.get_transducer_id with
          | some tid =>
            if dict_contains tid s2.param.loaded_transducers then
              (remove_transducer m s2 ui tid true).1
            else s2
          | none => s2) with hs3
      have h3 : s3.param.loaded_session = none := by
        rw [hs3]
        cases s.get_transducer_id with
        | none => exact h2
        | some tid =>
          dsimp only
          split
          · exact (bR s2 ui tid true).2.2.1 h2
          · exact h2
      show (match s.get_protocol_id with
          | some pid =>
            if s3.param.loaded_protocols.contains pid then
              (remove_protocol s3 pid).1
            else s3
          | none => s3).param.loaded_session = none
      cases s.get_protocol_id with
      | none => exact h3
      | some pid =>
        dsimp only
        split
        · rw [remove_protocol_session]
          exact h3
        · exact h3

/-! ## Claim theorems -/

/-- C1: For every active session holding a virtual-fit approval for a target
point, the revocation handler `revoke_approval_if_any` — which the
PrePlanning widget's point-modified and point-added-or-removed observers
invoke on every geometry change, point addition and point removal of a
watched fiducial node — clears the session's virtual-fit approval marker,
writes the cleared session back to the parameter node, and raises a
user-visible notification, leaving the loaded-transducer registry and the
scene untouched; if no session is active, the revocation handler changes
nothing. -/
theorem revoke_approval_spec (st : DataState) (target_name : String) :
    (∀ s, st.param.loaded_session = some s →
      s.session.virtual_fit_approval_for_target_id = some target_name →
      (revoke_approval_if_any st (some target_name)).param.loaded_session
          = some (s.approve_virtual_fit_for_target none)
        ∧ (s.approve_virtual_fit_for_target
            none).session.virtual_fit_approval_for_target_id = none
        ∧ (revoke_approval_if_any st (some target_name)).notifications
          = "Virtual fit approval has been revoked because the approved target was modified."
            :: st.notifications
        ∧ (revoke_approval_if_any st (some target_name)).param.loaded_transducers
          = st.param.loaded_transducers
        ∧ (revoke_approval_if_any st (some target_name)).scene = st.scene)
    ∧ (st.param.loaded_session = none →
        revoke_approval_if_any st (some target_name) = st)
    ∧ onPointModified st target_name
        = revoke_approval_if_any st (some target_name)
    ∧ onPointAddedOrRemoved st target_name
        = revoke_approval_if_any st (some target_name) := by
  refine ⟨?_, ?_, rfl, rfl⟩
  · intro s hs happr
    have hcond : s.virtual_fit_is_approved_for_target target_name = true := by
      unfold SlicerOpenLIFUSession.virtual_fit_is_approved_for_target
      rw [happr]
      simp
    unfold revoke_approval_if_any
    rw [hs]
    dsimp only
    rw [hcond]
    simp [infoDisplay, addNotification,
      SlicerOpenLIFUSession.approve_virtual_fit_for_target]
  · intro hs
    unfold revoke_approval_if_any
    rw [hs]

/-- Session used by the C1 witness: virtual fit approved for target
"t-apex". -/
def egSessionC1 : SlicerOpenLIFUSession :=
  { session :=
      { id := "S1"
        subject_id := "sub-1"
        transducer_id := some "T1"
        protocol_id := some "P1"
        volume_id := some "V1"
        virtual_fit_approval_for_target_id := some "t-apex"
        transducer_tracking_approved := false }
    volume_node := some "vtkMRMLNode90"
    target_nodes := ["vtkMRMLNode91"] }

/-- Registry state used by the C1 witness. -/
def egStateC1 : DataState :=
  { param :=
      { loaded_protocols := ["P1"]
        loaded_transducers := []
        loaded_session := some egSessionC1 }
    scene := []
    next_node_id := 0
    notifications := []
    observations := [] }

/-- Witness for C1: modifying the approved target "t-apex" clears the
approval and raises the notification. -/
theorem revoke_approval_spec_witness :
    (revoke_approval_if_any egStateC1 (some "t-apex")).param.loaded_session
        = some (egSessionC1.approve_virtual_fit_for_target none)
      ∧ (egSessionC1.approve_virtual_fit_for_target
          none).session.virtual_fit_approval_for_target_id = none
      ∧ (revoke_approval_if_any egStateC1 (some "t-apex")).notifications
        = "Virtual fit approval has been revoked because the approved target was modified."
          :: egStateC1.notifications
      ∧ (revoke_approval_if_any egStateC1
          (some "t-apex")).param.loaded_transducers
        = egStateC1.param.loaded_transducers
      ∧ (revoke_approval_if_any egStateC1 (some "t-apex")).scene
        = egStateC1.scene :=
  (revoke_approval_spec egStateC1 "t-apex").1 egSessionC1 rfl rfl

/-- C2: Whenever the placement transform of the active session's transducer
is modified, the handler revokes the session's transducer-tracking approval
(if set) and its virtual-fit approval (if set), writing both revocations
back into the active session in the parameter node, while the
loaded-transducer registry and the scene are untouched. -/
theorem transducer_transform_modified_spec (st : DataState)
    (t : SlicerOpenLIFUTransducer) (s : SlicerOpenLIFUSession)
    (hs : st.param.loaded_session = some s)
    (ht : s.session.transducer_id = some t.transducer.id) :
    (on_transducer_transform_modified st t).param.loaded_session
      = some { s with session := { s.session with
          transducer_tracking_approved := false,
          virtual_fit_approval_for_target_id := none } }
    ∧ (on_transducer_transform_modified st t).param.loaded_transducers
      = st.param.loaded_transducers
    ∧ (on_transducer_transform_modified st t).scene = st.scene := by
  obtain ⟨⟨sid, subid, tid, pid, vid, vfa, ttr⟩, vol, tgts⟩ := s
  simp only [OpenlifuSession.mk.injEq] at ht ⊢
  unfold on_transducer_transform_modified
  rw [hs]
  dsimp only
  cases ttr <;> cases vfa <;>
    simp_all [SlicerOpenLIFUSession.transducer_tracking_is_approved,
      SlicerOpenLIFUSession.toggle_transducer_tracking_approval,
      SlicerOpenLIFUSession.approve_virtual_fit_for_target,
      SlicerOpenLIFUSession.get_transducer_id]

/-- Transducer used by the C2 and C3 witnesses. -/
def egSlicerTransducer : SlicerOpenLIFUTransducer :=
  { transducer := { id := "T1", units := "mm" }
    model_node := "vtkMRMLNode10"
    transform_node := "vtkMRMLNode11" }

/-- Session used by the C2 witness: both approvals set, transducer "T1". -/
def egSessionC2 : SlicerOpenLIFUSession :=
  { session :=
      { id := "S2"
        subject_id := "sub-2"
        transducer_id := some "T1"
        protocol_id := some "P1"
        volume_id := some "V1"
        virtual_fit_approval_for_target_id := some "t-apex"
        transducer_tracking_approved := true }
    volume_node := some "vtkMRMLNode92"
    target_nodes := [] }

/-- Registry state used by the C2 witness. -/
def egStateC2 : DataState :=
  { param :=
      { loaded_protocols := ["P1"]
        loaded_transducers := [("T1", egSlicerTransducer)]
        loaded_session := some egSessionC2 }
    scene := []
    next_node_id := 0
    notifications := []
    observations := [] }

/-- Witness for C2: moving the session's transducer "T1" revokes both the
tracking approval and the virtual-fit approval. -/
theorem transducer_transform_modified_spec_witness :
    (on_transducer_transform_modified egStateC2
        egSlicerTransducer).param.loaded_session
      = some { egSessionC2 with session := { egSessionC2.session with
          transducer_tracking_approved := false,
          virtual_fit_approval_for_target_id := none } }
    ∧ (on_transducer_transform_modified egStateC2
        egSlicerTransducer).param.loaded_transducers
      = egStateC2.param.loaded_transducers
    ∧ (on_transducer_transform_modified egStateC2 egSlicerTransducer).scene
      = egStateC2.scene :=
  transducer_transform_modified_spec egStateC2 egSlicerTransducer egSessionC2
    rfl rfl

/-- C3: For every transducer whose id equals the active session's transducer
id, `load_transducer_from_openlifu` refuses the load unconditionally —
regardless of `replace_confirmed` — raising only an error dialog: the
loaded-transducer registry and the scene are unchanged, and no transducer is
returned. -/
theorem load_transducer_refuses_session_transducer (fuel : Nat)
    (st : DataState) (ui : UIOracle) (transducer : OpenlifuTransducer)
    (transducer_matrix : Option Mat4)
    (transducer_matrix_units : Option String) (replace_confirmed : Bool)
    (h : get_current_session_transducer_id st = some transducer.id) :
    load_transducer_from_openlifu fuel st ui transducer transducer_matrix
        transducer_matrix_units replace_confirmed
      = (errorDisplay st ("A transducer with ID " ++ transducer.id
          ++ " is in use by the current session. Not loading it."),
         Except.ok none)
    ∧ (load_transducer_from_openlifu fuel st ui transducer transducer_matrix
        transducer_matrix_units
        replace_confirmed).1.param.loaded_transducers
      = st.param.loaded_transducers
    ∧ (load_transducer_from_openlifu fuel st ui transducer transducer_matrix
        transducer_matrix_units replace_confirmed).1.scene = st.scene
    ∧ (load_transducer_from_openlifu fuel st ui transducer transducer_matrix
        transducer_matrix_units replace_confirmed).2 = Except.ok none := by
  have hmain : load_transducer_from_openlifu fuel st ui transducer
      transducer_matrix transducer_matrix_units replace_confirmed
      = (errorDisplay st ("A transducer with ID " ++ transducer.id
          ++ " is in use by the current session. Not loading it."),
         Except.ok none) := by
    unfold load_transducer_from_openlifu
    rw [h]
    simp
  refine ⟨hmain, ?_, ?_, ?_⟩ <;> rw [hmain] <;> rfl

/-- Session used by the C3 witness: it owns transducer "T1". -/
def egSessionC3 : SlicerOpenLIFUSession :=
  { session :=
      { id := "S3"
        subject_id := "sub-3"
        transducer_id := some "T1"
        protocol_id := some "P1"
        volume_id := some "V1"
        virtual_fit_approval_for_target_id := none
        transducer_tracking_approved := false }
    volume_node := some "vtkMRMLNode93"
    target_nodes := [] }

/-- Registry state used by the C3 witness: active session using "T1", and
"T1" registered in the loaded-transducer registry. -/
def egStateC3 : DataState :=
  { param :=
      { loaded_protocols := ["P1"]
        loaded_transducers := [("T1", egSlicerTransducer)]
        loaded_session := some egSessionC3 }
    scene := []
    next_node_id := 20
    notifications := []
    observations := [] }

/-- Witness for C3: loading "T1" while session S3 owns it is refused even
with `replace_confirmed = true`. -/
theorem load_transducer_refuses_session_transducer_witness :
    load_transducer_from_openlifu 5 egStateC3 (fun _ => true)
        { id := "T1", units := "mm" } none none true
      = (errorDisplay egStateC3 ("A transducer with ID " ++ "T1"
          ++ " is in use by the current session. Not loading it."),
         Except.ok none)
    ∧ (load_transducer_from_openlifu 5 egStateC3 (fun _ => true)
        { id := "T1", units := "mm" } none none
        true).1.param.loaded_transducers
      = egStateC3.param.loaded_transducers
    ∧ (load_transducer_from_openlifu 5 egStateC3 (fun _ => true)
        { id := "T1", units := "mm" } none none true).1.scene
      = egStateC3.scene
    ∧ (load_transducer_from_openlifu 5 egStateC3 (fun _ => true)
        { id := "T1", units := "mm" } none none true).2 = Except.ok none :=
  load_transducer_refuses_session_transducer 5 egStateC3 (fun _ => true)
    { id := "T1", units := "mm" } none none true rfl

/-- After a successful removal, the transducer id is no longer a key of the
loaded-transducers dictionary (shared by the theorems below). -/
theorem remove_transducer_key_removed (n : Nat) (st : DataState)
    (ui : UIOracle) (tid : String) (clean_up_scene : Bool)
    (hmem : dict_contains tid st.param.loaded_transducers = true) :
    dict_contains tid (remove_transducer (n + 1) st ui tid
        clean_up_scene).1.param.loaded_transducers = false := by
  rw [remove_transducer]
  rw [hmem]
  set s1 : DataState := { st with
      param := { st.param with
        loaded_transducers :=
          dict_erase tid st.param.loaded_transducers } } with hs1
  have h1 : dict_contains tid s1.param.loaded_transducers = false := by
    rw [hs1]
    exact dict_contains_erase_self _ tid
  obtain ⟨v, hv⟩ := dict_get_isSome_of_contains hmem
  rw [hv]
  cases clean_up_scene with
  | false => exact h1
  | true =>
    have hkeys := ((block_pres n).2.2.2.1 s1 ui v).2.1
    cases hres : dict_contains tid
        (transducer_clear_nodes n s1 ui v).param.loaded_transducers with
    | false => exact hres
    | true =>
      exfalso
      have := hkeys tid hres
      rw [h1] at this
      cases this

/-- C4: `remove_transducer` raises an `IndexError` and mutates no state for
every transducer id that is absent from the loaded-transducers dictionary;
for every id that is present, it succeeds and the entry is removed. -/
theorem remove_transducer_spec (fuel : Nat) (hf : 1 ≤ fuel) (st : DataState)
    (ui : UIOracle) (tid : String) (clean_up_scene : Bool) :
    (dict_contains tid st.param.loaded_transducers = false →
      remove_transducer fuel st ui tid clean_up_scene
        = (st, Except.error ("No transducer with ID " ++ tid
            ++ " appears to be loaded; cannot remove it.")))
    ∧ (dict_contains tid st.param.loaded_transducers = true →
      (remove_transducer fuel st ui tid clean_up_scene).2 = Except.ok ()
      ∧ dict_contains tid (remove_transducer fuel st ui tid
          clean_up_scene).1.param.loaded_transducers = false) := by
  obtain ⟨n, rfl⟩ : ∃ n, fuel = n + 1 := ⟨fuel - 1, by omega⟩
  constructor
  · intro hmem
    rw [remove_transducer]
    rw [hmem]
    rfl
  · intro hmem
    refine ⟨?_, remove_transducer_key_removed n st ui tid clean_up_scene hmem⟩
    rw [remove_transducer]
    rw [hmem]
    obtain ⟨v, hv⟩ := dict_get_isSome_of_contains hmem
    rw [hv]
    cases clean_up_scene with
    | false => rfl
    | true => rfl

/-- C5: In `remove_transducer`, the transducer id is popped from the
loaded-transducers dictionary strictly before its model and transform nodes
are released, so every registry snapshot observed by a re-entrant
NodeAboutToBeRemoved notification raised during the node release no longer
contains the removed transducer id (and the final registry does not contain
it either). -/
theorem remove_transducer_pop_before_release (fuel : Nat) (hf : 1 ≤ fuel)
    (st : DataState) (ui : UIOracle) (tid : String)
    (hmem : dict_contains tid st.param.loaded_transducers = true) :
    dict_contains tid (remove_transducer fuel st ui tid
        true).1.param.loaded_transducers = false
    ∧ ∃ new, (remove_transducer fuel st ui tid true).1.observations
        = new ++ st.observations
      ∧ ∀ o ∈ new, tid ∉ o := by
  obtain ⟨n, rfl⟩ : ∃ n, fuel = n + 1 := ⟨fuel - 1, by omega⟩
  refine ⟨remove_transducer_key_removed n st ui tid true hmem, ?_⟩
  rw [remove_transducer]
  rw [hmem]
  set s1 : DataState := { st with
      param := { st.param with
        loaded_transducers :=
          dict_erase tid st.param.loaded_transducers } } with hs1
  have h1 : dict_contains tid s1.param.loaded_transducers = false := by
    rw [hs1]
    exact dict_contains_erase_self _ tid
  have hobs1 : s1.observations = st.observations := by rw [hs1]
  obtain ⟨v, hv⟩ := dict_get_isSome_of_contains hmem
  rw [hv]
  obtain ⟨-, -, -, new, hnew, hnewmem⟩ := (block_pres n).2.2.2.1 s1 ui v
  refine ⟨new, ?_, ?_⟩
  · show (transducer_clear_nodes n s1 ui v).observations
      = new ++ st.observations
    rw [hnew, hobs1]
  intro o ho hk
  have := hnewmem o ho tid hk
  rw [h1] at this
  cases this

/-- Registry state used by the C4 witness: transducer "T1" loaded, with its
two nodes in the scene. -/
def egStateC4 : DataState :=
  { param :=
      { loaded_protocols := []
        loaded_transducers := [("T1", egSlicerTransducer)]
        loaded_session := none }
    scene :=
      [⟨"vtkMRMLNode10", NodeKind.model, "T1", [], [], [], false, none⟩,
       ⟨"vtkMRMLNode11", NodeKind.transform, "T1-matrix", [], [], [], false,
         none⟩]
    next_node_id := 12
    notifications := []
    observations := [] }

/-- Witness for C4: removing the unloaded id "T2" fails with the
`IndexError` message and mutates nothing, while removing the loaded id "T1"
succeeds and deletes the entry. -/
theorem remove_transducer_spec_witness :
    remove_transducer 3 egStateC4 (fun _ => false) "T2" true
      = (egStateC4, Except.error ("No transducer with ID " ++ "T2"
          ++ " appears to be loaded; cannot remove it."))
    ∧ ((remove_transducer 3 egStateC4 (fun _ => false) "T1" true).2
        = Except.ok ()
      ∧ dict_contains "T1" (remove_transducer 3 egStateC4 (fun _ => false)
          "T1" true).1.param.loaded_transducers = false) :=
  ⟨(remove_transducer_spec 3 (by omega) egStateC4 (fun _ => false) "T2"
      true).1 rfl,
   (remove_transducer_spec 3 (by omega) egStateC4 (fun _ => false) "T1"
      true).2 rfl⟩

/-- Registry state used by the C5 witness: same shape as the C4 state, so
that releasing the nodes of "T1" re-enters the NodeAboutToBeRemoved
handler. -/
def egStateC5 : DataState :=
  { param :=
      { loaded_protocols := []
        loaded_transducers := [("T1", egSlicerTransducer)]
        loaded_session := none }
    scene :=
      [⟨"vtkMRMLNode10", NodeKind.model, "T1", [], [], [], false, none⟩,
       ⟨"vtkMRMLNode11", NodeKind.transform, "T1-matrix", [], [], [], false,
         none⟩]
    next_node_id := 12
    notifications := []
    observations := [] }

/-- Witness for C5: removing the loaded transducer "T1" with scene cleanup
leaves no snapshot observed by the re-entrant handler containing "T1". -/
theorem remove_transducer_pop_before_release_witness :
    dict_contains "T1" (remove_transducer 4 egStateC5 (fun _ => true) "T1"
        true).1.param.loaded_transducers = false
    ∧ ∃ new, (remove_transducer 4 egStateC5 (fun _ => true) "T1"
          true).1.observations = new ++ egStateC5.observations
      ∧ ∀ o ∈ new, "T1" ∉ o :=
  remove_transducer_pop_before_release 4 (by omega) egStateC5 (fun _ => true)
    "T1" rfl

/-- C6: A session's validity queries are pure and return true exactly when
the referenced entity is present — the transducer id among the keys of the
loaded-transducers dictionary, the protocol id among the loaded protocols,
and the volume node in the scene — and when any of the three fails,
`validate_session` clears the active session (the parameter node's session
reference becomes `none`) and returns false. -/
theorem session_validity_spec (fuel : Nat) (hf : 2 ≤ fuel) (st : DataState)
    (ui : UIOracle) (s : SlicerOpenLIFUSession)
    (hs : st.param.loaded_session = some s) :
    (s.transducer_is_valid st = true ↔
      ∃ tid, s.session.transducer_id = some tid
        ∧ tid ∈ dict_keys st.param.loaded_transducers)
    ∧ (s.protocol_is_valid st = true ↔
      ∃ pid, s.session.protocol_id = some pid
        ∧ pid ∈ st.param.loaded_protocols)
    ∧ (s.volume_is_valid st = true ↔
      ∃ v, s.volume_node = some v ∧ ∃ nd ∈ st.scene, nd.mrml_id = v)
    ∧ ((s.transducer_is_valid st = false ∨ s.volume_is_valid st = false
        ∨ s.protocol_is_valid st = false) →
      (validate_session fuel st ui).1.param.loaded_session = none
        ∧ (validate_session fuel st ui).2 = false) := by
  obtain ⟨m, rfl⟩ : ∃ m, fuel = m + 2 := ⟨fuel - 2, by omega⟩
  refine ⟨?_, ?_, ?_, ?_⟩
  · unfold SlicerOpenLIFUSession.transducer_is_valid opt_dict_contains
      SlicerOpenLIFUSession.get_transducer_id
    cases s.session.transducer_id with
    | none => simp
    | some tid =>
      simp [dict_contains, dict_keys, List.any_eq_true, List.mem_map]
  · unfold SlicerOpenLIFUSession.protocol_is_valid
      SlicerOpenLIFUSession.get_protocol_id
    cases s.session.protocol_id with
    | none => simp
    | some pid => simp
  · unfold SlicerOpenLIFUSession.volume_is_valid
    cases s.volume_node with
    | none => simp
    | some v =>
      simp [List.find?_isSome]
  · intro hinv
    rw [validate_session]
    rw [hs]
    dsimp only
    by_cases h1 : s.transducer_is_valid st = false
    · rw [if_pos h1]
      exact ⟨clear_session_clears m _ ui _, rfl⟩
    · rw [if_neg h1]
      by_cases h2 : s.volume_is_valid st = false
      · rw [if_pos h2]
        exact ⟨clear_session_clears m _ ui _, rfl⟩
      · rw [if_neg h2]
        by_cases h3 : s.protocol_is_valid st = false
        · rw [if_pos h3]
          exact ⟨clear_session_clears m _ ui _, rfl⟩
        · tauto

/-- Session used by the C6 witness: it references transducer "T1", which is
not loaded. -/
def egSessionC6 : SlicerOpenLIFUSession :=
  { session :=
      { id := "S6"
        subject_id := "sub-6"
        transducer_id := some "T1"
        protocol_id := some "P1"
        volume_id := some "V1"
        virtual_fit_approval_for_target_id := none
        transducer_tracking_approved := false }
    volume_node := some "vtkMRMLNode95"
    target_nodes := [] }

/-- Registry state used by the C6 witness: active session S6 whose
transducer is missing from the registry. -/
def egStateC6 : DataState :=
  { param :=
      { loaded_protocols := ["P1"]
        loaded_transducers := []
        loaded_session := some egSessionC6 }
    scene :=
      [⟨"vtkMRMLNode95", NodeKind.scalarVolume, "V1", [], [], [], false,
        none⟩]
    next_node_id := 96
    notifications := []
    observations := [] }

/-- Witness for C6: validating the session whose transducer is missing
clears the active session and returns false. -/
theorem session_validity_spec_witness :
    (validate_session 2 egStateC6 (fun _ => true)).1.param.loaded_session
        = none
    ∧ (validate_session 2 egStateC6 (fun _ => true)).2 = false :=
  (session_validity_spec 2 (by omega) egStateC6 (fun _ => true) egSessionC6
    rfl).2.2.2 (Or.inl rfl)

/-- C10: Converting an openlifu Point with recognized dims and units to a
fiducial node succeeds; the node's openlifu point id (its node name) is the
point's id; any pre-existing nodes with that name were removed first, so
exactly one node of the resulting scene carries the point's id as its name;
and converting the node back with `fiducial_to_openlifu_point` yields a
point with the same id, dims `('R','A','S')` and units `"mm"` — which that
function produces for every fiducial node with at least one control
point. -/
theorem point_fiducial_roundtrip (fuel : Nat) (hf : 1 ≤ fuel)
    (st : DataState) (ui : UIOracle) (point : OpenlifuPoint) (R : Mat3i)
    (sc : ℚ)
    (hdims : get_xxx2ras_matrix (point.dims 0) (point.dims 1) (point.dims 2)
      = Except.ok R)
    (hunits : get_xx2mm_scale_factor point.units = some sc) :
    (∃ node st',
      openlifu_point_to_fiducial fuel st ui point = (st', Except.ok node)
      ∧ fiducial_to_openlifu_point_id node = point.id
      ∧ node ∈ st'.scene
      ∧ (st'.scene.filter (fun nd => nd.name = point.id)).length = 1
      ∧ ∃ q, fiducial_to_openlifu_point node = Except.ok q
          ∧ q.id = point.id ∧ q.dims = rasDims ∧ q.units = "mm")
    ∧ (∀ nd q, fiducial_to_openlifu_point nd = Except.ok q →
        q.id = fiducial_to_openlifu_point_id nd ∧ q.dims = rasDims
          ∧ q.units = "mm") := by
  obtain ⟨n, rfl⟩ : ∃ n, fuel = n + 1 := ⟨fuel - 1, by omega⟩
  constructor
  · unfold openlifu_point_to_fiducial
    rw [hdims, hunits]
    dsimp only
    set st1 : DataState := remove_nodes_loop (n + 1) st ui
      ((st.scene.filter (fun nd => nd.name = point.id)).map SceneNode.mrml_id)
      with hst1
    have hclean : ∀ x ∈ st1.scene, x.name ≠ point.id := by
      rw [hst1]
      intro x hx hname
      obtain ⟨hmem, hnotin⟩ := remove_nodes_loop_removes n st ui _ x hx
      apply hnotin
      simp only [List.mem_map]
      exact ⟨x, List.mem_filter.mpr ⟨hmem, by simp [hname]⟩, rfl⟩
    refine ⟨_, _, rfl, rfl, List.mem_cons_self _ _, ?_, ?_⟩
    · have hrest : ((fresh_node_id st1).2.scene.filter
          (fun nd => nd.name = point.id)) = [] := by
        rw [List.filter_eq_nil_iff]
        intro x hx
        simp only [decide_eq_true_eq]
        exact hclean x hx
      simp only [List.filter_cons]
      rw [hrest]
      simp
    · exact ⟨_, rfl, rfl, rfl, rfl⟩
  · intro nd q hq
    unfold fiducial_to_openlifu_point at hq
    cases hpos : nd.control_point_positions with
    | nil =>
      rw [hpos] at hq
      cases hq
    | cons p rest =>
      rw [hpos] at hq
      injection hq with hq
      subst hq
      exact ⟨rfl, rfl, rfl⟩

/-- The RAS sign matrix, used by the C10 witness. -/
def egRasMat : Mat3i := get_xxx2ras_matrix_total 'R' 'A' 'S'

/-- Point used by the C10 witness. -/
def egPointC10 : OpenlifuPoint :=
  { id := "t-apex"
    name := "apex"
    position := ![5, 6, 7]
    dims := rasDims
    units := "mm"
    color := [] }

/-- Registry state used by the C10 witness: the scene already holds a stale
fiducial node named "t-apex", which the conversion must replace. -/
def egStateC10 : DataState :=
  { param :=
      { loaded_protocols := []
        loaded_transducers := []
        loaded_session := none }
    scene :=
      [⟨"vtkMRMLNode50", NodeKind.markupsFiducial, "t-apex", [], [], [],
        false, none⟩]
    next_node_id := 51
    notifications := []
    observations := [] }

/-- Witness for C10: converting the point "t-apex" into a fiducial node in a
scene that already held a node of that name. -/
theorem point_fiducial_roundtrip_witness :
    (∃ node st',
      openlifu_point_to_fiducial 2 egStateC10 (fun _ => true) egPointC10
        = (st', Except.ok node)
      ∧ fiducial_to_openlifu_point_id node = egPointC10.id
      ∧ node ∈ st'.scene
      ∧ (st'.scene.filter (fun nd => nd.name = egPointC10.id)).length = 1
      ∧ ∃ q, fiducial_to_openlifu_point node = Except.ok q
          ∧ q.id = egPointC10.id ∧ q.dims = rasDims ∧ q.units = "mm")
    ∧ (∀ nd q, fiducial_to_openlifu_point nd = Except.ok q →
        q.id = fiducial_to_openlifu_point_id nd ∧ q.dims = rasDims
          ∧ q.units = "mm") :=
  point_fiducial_roundtrip 2 (by omega) egStateC10 (fun _ => true) egPointC10
    egRasMat 1 rfl rfl
